import Mathlib

/-!
Verification of the conversation session manager and streaming-response
pipeline of `kodekey-chatbot/chatbot.py`.

Modelling conventions (shallow embedding of the Python source):
* Python dicts are insertion-ordered association lists; `d[k] = v` is
  `setKey` (update in place if the key exists, else append), `del d[k]`
  is `delKey`, lookup is `alookup`.
* JSON values parsed by `json.load` are the inductive `Json`; the text
  round trip `json.loads (json.dumps d) = d` is modelled as the identity
  on `Json` values, so export returns the stored value and import takes
  an already-parsed `Except String Json` (`.error e` models a parse
  exception with message `e`).
* `uuid.uuid4()` is modelled by passing the freshly generated id string
  as an explicit argument; `datetime.now().isoformat()` likewise.
* Python floats are modelled as `ℚ` (the program only ever compares and
  stores them; JSON serialisation of floats round-trips exactly).
* Python string ops are modelled character-exactly on `List Char`
  (`py_strip`, `py_take`, `py_len`) restricted to ASCII whitespace.
* A Python function that can raise an uncaught exception is embedded
  with an `Option`/result type whose `none` is the exception; Streamlit
  notices (`st.success` / `st.error`) are collected in a `List Notice`.
-/

namespace KodekeyChatbot

/-- A JSON value, as produced by `json.load`. Numbers are modelled as `ℚ`. -/
inductive Json where
  | null : Json
  | bool (b : Bool) : Json
  | num (q : ℚ) : Json
  | str (s : String) : Json
  | arr (elems : List Json) : Json
  | obj (fields : List (String × Json)) : Json

/-- A Streamlit notice surfaced to the user (`st.success` / `st.error`). -/
inductive Notice where
  | success (msg : String) : Notice
  | error (msg : String) : Notice
deriving DecidableEq

/-- Association-list lookup: Python `d[k]` / `k in d` (first, hence unique, match). -/
def alookup {α : Type} (k : String) : List (String × α) → Option α
  | [] => none
  | (k', v) :: rest => if k' = k then some v else alookup k rest

/-- Python `d[k] = v`: overwrite in place when the key exists, else append. -/
def setKey {α : Type} (k : String) (v : α) : List (String × α) → List (String × α)
  | [] => [(k, v)]
  | (k', v') :: rest => if k' = k then (k, v) :: rest else (k', v') :: setKey k v rest

/-- Python `del d[k]`: remove the entry with key `k` (keys are unique in a dict). -/
def delKey {α : Type} (k : String) : List (String × α) → List (String × α)
  | [] => []
  | (k', v') :: rest => if k' = k then delKey k rest else (k', v') :: delKey k rest

/-- Field lookup on a JSON object, `none` on a non-object (Python would raise). -/
def jlookup (j : Json) (k : String) : Option Json :=
  match j with
  | Json.obj fields => alookup k fields
  | _ => none

/-- Python `dict.update(u)` on a JSON object (`none` when the value is not a dict). -/
def jupdate (j : Json) (u : List (String × Json)) : Option Json :=
  match j with
  | Json.obj fields => some (Json.obj (u.foldl (fun acc kv => setKey kv.1 kv.2 acc) fields))
  | _ => none

/-- ASCII whitespace as recognised by Python `str.strip`. -/
def py_space (c : Char) : Bool :=
  c = ' ' || c = '\t' || c = '\n' || c = '\r' || c = '\x0b' || c = '\x0c'

/-- Python `s.strip()` (restricted to ASCII whitespace). -/
def py_strip (s : String) : String :=
  ⟨((s.toList.dropWhile py_space).reverse.dropWhile py_space).reverse⟩

/-- Python `s[:n]`. -/
def py_take (n : Nat) (s : String) : String :=
  ⟨s.toList.take n⟩

/-- Python `len(s)`. -/
def py_len (s : String) : Nat :=
  s.toList.length

/-- `ChatBot.models`: display name → backend model identifier (chatbot.py 116-120). -/
def models : List (String × String) :=
  [("Claude Sonnet 4", "anthropic/claude-sonnet-4"),
   ("GPT-4o", "openai/gpt-4o"),
   ("Gemini 2.0 Flash", "google/gemini-2.0-flash-thinking-exp")]

/-- `ChatBot.system_prompts`: personality name → system prompt (chatbot.py 123-129). -/
def system_prompts : List (String × String) :=
  [("Assistant", "You are a helpful AI assistant. Provide clear, accurate, and helpful responses to user queries."),
   ("Developer", "You are an expert software developer. Help with coding questions, debugging, and best practices."),
   ("Teacher", "You are a patient and knowledgeable teacher. Explain concepts clearly with examples and encourage learning."),
   ("Creative", "You are a creative AI assistant. Help with writing, brainstorming, and creative projects with imagination and flair."),
   ("Analyst", "You are a data analyst and researcher. Provide detailed analysis, insights, and evidence-based responses.")]

/-- A chat message dict `\x7b"role": r, "content": c\x7d`. -/
structure Message where
  role : String
  content : String
deriving DecidableEq

/-- The JSON object a message dict serialises to. -/
def msg_json (m : Message) : Json :=
  Json.obj [("role", Json.str m.role), ("content", Json.str m.content)]

/-- A well-shaped conversation dict, with the fields every creation site of
chatbot.py writes (lines 173-180, 189-196, 404-411). -/
structure Conversation where
  title : String
  messages : List Message
  created_at : String
  model : String
  personality : String
  temperature : ℚ
deriving DecidableEq

/-- The JSON object a conversation dict serialises to, in the key order of the source. -/
def conv_json (c : Conversation) : Json :=
  Json.obj [("title", Json.str c.title),
            ("messages", Json.arr (c.messages.map msg_json)),
            ("created_at", Json.str c.created_at),
            ("model", Json.str c.model),
            ("personality", Json.str c.personality),
            ("temperature", Json.num c.temperature)]

/-- The conversation every creation site builds (chatbot.py 173-180 etc.). -/
def default_conversation (createdAt : String) : Conversation :=
  { title := "New Chat"
    messages := []
    created_at := createdAt
    model := "anthropic/claude-sonnet-4"
    personality := "Assistant"
    temperature := mkRat 7 10 }

/-- `st.session_state`: the conversation store (id → stored JSON dict, in
insertion order) and the active conversation id (`none` = key not set). -/
structure AppState where
  conversations : List (String × Json)
  active_conversation : Option String
deriving Inhabited

/-- The session state before `initialize_session_state` has ever run. -/
def empty_state : AppState :=
  { conversations := [], active_conversation := none }

/-- `initialize_session_state` (chatbot.py 165-184): when no active
conversation is set, create a first default conversation under the fresh
uuid and make it active. -/
def initialize_session_state (freshId createdAt : String) (s : AppState) : AppState :=
  match s.active_conversation with
  | some _ => s
  | none =>
      { conversations := setKey freshId (conv_json (default_conversation createdAt)) s.conversations
        active_conversation := some freshId }

/-- `create_new_conversation` (chatbot.py 186-198). -/
def create_new_conversation (freshId createdAt : String) (s : AppState) : AppState :=
  { conversations := setKey freshId (conv_json (default_conversation createdAt)) s.conversations
    active_conversation := some freshId }

/-- `delete_conversation` (chatbot.py 200-207). `none` models the uncaught
`KeyError` of `del` on an absent key; the notice list records that the
function reports nothing to the user in any branch. -/
def delete_conversation (cid : String) (s : AppState) : Option (AppState × List Notice) :=
  if s.conversations.length > 1 then
    if (alookup cid s.conversations).isSome then
      let convs := delKey cid s.conversations
      let active :=
        if s.active_conversation = some cid then (convs.map Prod.fst).head?
        else s.active_conversation
      some ({ conversations := convs, active_conversation := active }, [])
    else none
  else some (s, [])

/-- `export_conversation` (chatbot.py 225-230): the serialised JSON of the
stored conversation, or `none` when the id is absent. -/
def export_conversation (cid : String) (s : AppState) : Option Json :=
  alookup cid s.conversations

/-- `import_conversation` (chatbot.py 232-242). The argument is the result
of `json.load`: a parse failure (`.error e`) reaches the `except` branch,
which reports the error and leaves the state unchanged; any parsed value
is stored as-is under a fresh uuid and made active. -/
def import_conversation (parsed : Except String Json) (freshId : String) (s : AppState) :
    AppState × List Notice :=
  match parsed with
  | Except.error e => (s, [Notice.error ("❌ Error importing conversation: " ++ e)])
  | Except.ok data =>
      ({ conversations := setKey freshId data s.conversations
         active_conversation := some freshId },
       [Notice.success "✅ Conversation imported successfully!"])

/-- The "Clear All Chats" handler (chatbot.py 399-414): when the store is
non-empty, replace it with a single fresh default conversation. -/
def clear_all (freshId createdAt : String) (s : AppState) : AppState :=
  if s.conversations.isEmpty then s
  else
    { conversations := [(freshId, conv_json (default_conversation createdAt))]
      active_conversation := some freshId }

/-- The sidebar settings update (chatbot.py 296, 334-338): write the selected
model id, personality and temperature into the active conversation. `none`
models the `KeyError` on a dangling active id, an unknown model name, or a
stored value that is not a dict. When no active conversation is set the
guard at line 295 skips the block. -/
def update_settings (modelName personality : String) (temperature : ℚ) (s : AppState) :
    Option AppState :=
  match s.active_conversation with
  | none => some s
  | some aid =>
      match alookup aid s.conversations with
      | none => none
      | some conv =>
          match alookup modelName models with
          | none => none
          | some mid =>
              match jupdate conv [("model", Json.str mid),
                                  ("personality", Json.str personality),
                                  ("temperature", Json.num temperature)] with
              | none => none
              | some conv' =>
                  some { s with conversations := setKey aid conv' s.conversations }

/-- One event of the backend streaming iterator: either the next chunk
(whose `delta.content` may be null) or an exception raised while iterating. -/
inductive StreamEvent where
  | chunk (content : Option String) : StreamEvent
  | fault (err : String) : StreamEvent
deriving DecidableEq

/-- An event is a fault. -/
def StreamEvent.isFault : StreamEvent → Bool
  | StreamEvent.fault _ => true
  | StreamEvent.chunk _ => false

/-- The non-null chunk contents of a fault-free event prefix, in order. -/
def chunk_contents : List StreamEvent → List String
  | [] => []
  | StreamEvent.chunk none :: rest => chunk_contents rest
  | StreamEvent.chunk (some s) :: rest => s :: chunk_contents rest
  | StreamEvent.fault _ :: rest => chunk_contents rest

/-- `ChatBot.stream_response` (chatbot.py 147-163) as a function of the
event sequence of the backend: yield each non-null `delta.content`; the first
exception is caught by the `except` branch, which yields exactly one
error-marked chunk and ends the generator. -/
def stream_response : List StreamEvent → List String
  | [] => []
  | StreamEvent.chunk none :: rest => stream_response rest
  | StreamEvent.chunk (some s) :: rest => s :: stream_response rest
  | StreamEvent.fault e :: _ => ["❌ Error: " ++ e]

/-- `get_conversation_title` (chatbot.py 209-223). -/
def get_conversation_title (messages : List Message) : String :=
  if messages = [] then "New Chat"
  else
    match messages.find? (fun m => m.role = "user") with
    | some m =>
        let content := m.content
        let title := py_strip (py_take 30 content)
        if py_len content > 30 then title ++ "..." else title
    | none => "New Chat"

/-- The request assembly of a turn (chatbot.py 507-516): one system message
from the system prompt of the personality, then the last 20 entries of the
messages of the conversation (`[-20:]`). `none` models the `KeyError` on a
personality absent from `system_prompts`. -/
def assemble_request (personality : String) (msgs : List Message) : Option (List Message) :=
  match alookup personality system_prompts with
  | none => none
  | some sys =>
      some ({ role := "system", content := sys } :: msgs.drop (msgs.length - 20))

/-- The request a turn on `conv` with raw input `input` sends to the backend
(chatbot.py 495-516): after the guard on the stripped input and the append
of the user message, the assembled message list. `none` when the turn is
rejected or the personality lookup raises. -/
def turn_request (input : String) (conv : Conversation) : Option (List Message) :=
  if py_strip input = "" then none
  else
    assemble_request conv.personality
      (conv.messages ++ [{ role := "user", content := py_strip input }])

/-- One submitted turn on the active conversation (chatbot.py 495-547):
reject silently when the stripped input is empty; otherwise append the user
message, recompute the title when it is the first message, assemble the
request, consume the stream to completion accumulating `response_text`, and
append the assistant message. `events` is the behaviour of the backend for this
call; `none` models the `KeyError` on an invalid personality. -/
def submit_message (input : String) (events : List StreamEvent) (conv : Conversation) :
    Option Conversation :=
  if py_strip input = "" then some conv
  else
    let msgs1 := conv.messages ++ [{ role := "user", content := py_strip input }]
    let conv1 := { conv with messages := msgs1 }
    let conv2 :=
      if msgs1.length = 1 then { conv1 with title := get_conversation_title msgs1 }
      else conv1
    -- line 510 reads the personality of the active conversation, which the
    -- title update of lines 503-504 leaves untouched
    match assemble_request conv.personality msgs1 with
    | none => none
    | some _request =>
        let response_text := String.join (stream_response events)
        some { conv2 with messages := msgs1 ++ [{ role := "assistant", content := response_text }] }

/-- The backend model identifiers of the catalog (the values of `models`). -/
def catalog_model_ids : List String :=
  models.map Prod.snd

/-- The invariant claimed of every stored conversation: its `model` resolves
to a ModelCatalog entry, its `personality` is a key of the system-prompt
table, and its `temperature` lies in `[0, 1]`. -/
def conv_ok (j : Json) : Bool :=
  (match jlookup j "model" with
   | some (Json.str m) => catalog_model_ids.contains m
   | _ => false) &&
  (match jlookup j "personality" with
   | some (Json.str p) => (alookup p system_prompts).isSome
   | _ => false) &&
  (match jlookup j "temperature" with
   | some (Json.num t) => decide ((0 : ℚ) ≤ t) && decide (t ≤ 1)
   | _ => false)

/-- The store-level invariant: every held conversation satisfies `conv_ok`. -/
def state_ok (s : AppState) : Bool :=
  s.conversations.all (fun p => conv_ok p.2)

/-- The designated marker every backend-failure string of chatbot.py is
prefixed with (lines 145, 163, 542). -/
def error_marker : String :=
  "❌"

/-- Whether `s` begins with the string `p`. -/
def begins_with (p s : String) : Bool :=
  decide (s.toList.take p.toList.length = p.toList)

/-!  Helper lemmas about the dict and stream primitives. -/

theorem alookup_setKey_self {α : Type} (k : String) (v : α) (l : List (String × α)) :
    alookup k (setKey k v l) = some v := by
  induction l with
  | nil => simp [setKey, alookup]
  | cons hd tl ih =>
      obtain ⟨k', v'⟩ := hd
      by_cases h : k' = k
      · simp [setKey, h, alookup]
      · simp [setKey, h, alookup, ih]

theorem alookup_setKey_ne {α : Type} (k k' : String) (v : α) (l : List (String × α))
    (h : k' ≠ k) : alookup k' (setKey k v l) = alookup k' l := by
  have h' : k ≠ k' := Ne.symm h
  induction l with
  | nil => simp [setKey, alookup, h']
  | cons hd tl ih =>
      obtain ⟨a, b⟩ := hd
      by_cases ha : a = k
      · subst ha
        simp [setKey, alookup, h']
      · simp [setKey, ha, alookup, ih]

theorem alookup_delKey_self {α : Type} (k : String) (l : List (String × α)) :
    alookup k (delKey k l) = none := by
  induction l with
  | nil => rfl
  | cons hd tl ih =>
      obtain ⟨a, b⟩ := hd
      by_cases ha : a = k
      · simp [delKey, ha, ih]
      · simp [delKey, ha, alookup, ih]

theorem alookup_delKey_ne {α : Type} (k k' : String) (l : List (String × α))
    (h : k' ≠ k) : alookup k' (delKey k l) = alookup k' l := by
  have h' : k ≠ k' := Ne.symm h
  induction l with
  | nil => rfl
  | cons hd tl ih =>
      obtain ⟨a, b⟩ := hd
      by_cases ha : a = k
      · subst ha
        simp [delKey, alookup, h', ih]
      · simp [delKey, ha, alookup, ih]

theorem delKey_of_not_mem {α : Type} (k : String) (l : List (String × α))
    (h : k ∉ l.map Prod.fst) : delKey k l = l := by
  induction l with
  | nil => rfl
  | cons hd tl ih =>
      obtain ⟨a, b⟩ := hd
      simp only [List.map_cons, List.mem_cons] at h
      push_neg at h
      have ha : a ≠ k := Ne.symm h.1
      simp [delKey, ha, ih h.2]

theorem keys_delKey {α : Type} (k : String) (l : List (String × α)) :
    (delKey k l).map Prod.fst = (l.map Prod.fst).filter (fun x => x ≠ k) := by
  induction l with
  | nil => rfl
  | cons hd tl ih =>
      obtain ⟨a, b⟩ := hd
      by_cases ha : a = k
      · simp [delKey, ha, List.filter, ih]
      · simp [delKey, ha, List.filter, ih]

theorem length_delKey {α : Type} (k : String) (v : α) (l : List (String × α))
    (hnd : (l.map Prod.fst).Nodup) (hv : alookup k l = some v) :
    (delKey k l).length + 1 = l.length := by
  induction l with
  | nil => simp [alookup] at hv
  | cons hd tl ih =>
      obtain ⟨a, b⟩ := hd
      simp only [List.map_cons, List.nodup_cons] at hnd
      by_cases ha : a = k
      · subst ha
        rw [delKey]
        simp only [if_pos rfl]
        rw [delKey_of_not_mem a tl hnd.1]
        simp
      · rw [alookup, if_neg ha] at hv
        rw [delKey]
        simp only [if_neg ha, List.length_cons]
        rw [ih hnd.2 hv]

theorem alookup_mem_values {α : Type} (k : String) (v : α) (l : List (String × α))
    (h : alookup k l = some v) : v ∈ l.map Prod.snd := by
  induction l with
  | nil => simp [alookup] at h
  | cons hd tl ih =>
      obtain ⟨a, b⟩ := hd
      by_cases ha : a = k
      · rw [alookup, if_pos ha] at h
        simp [Option.some_inj.mp h]
      · rw [alookup, if_neg ha] at h
        simp [ih h]

theorem all_setKey {α : Type} (p : String × α → Bool) (k : String) (v : α)
    (l : List (String × α)) (hl : l.all p = true) (hv : p (k, v) = true) :
    (setKey k v l).all p = true := by
  induction l with
  | nil => simp [setKey, hv]
  | cons hd tl ih =>
      obtain ⟨a, b⟩ := hd
      simp only [List.all_cons, Bool.and_eq_true] at hl
      by_cases ha : a = k
      · simp [setKey, ha, hv, hl.2]
      · simp [setKey, ha, hl.1, ih hl.2]

theorem stream_response_fault (pre suffix : List StreamEvent) (e : String)
    (h : ∀ ev ∈ pre, ev.isFault = false) :
    stream_response (pre ++ StreamEvent.fault e :: suffix) =
      chunk_contents pre ++ ["❌ Error: " ++ e] := by
  induction pre with
  | nil => rfl
  | cons hd tl ih =>
      have htl : ∀ ev ∈ tl, ev.isFault = false := fun ev hm => h ev (List.mem_cons_of_mem _ hm)
      cases hd with
      | chunk c =>
          cases c with
          | none => simpa [stream_response, chunk_contents] using ih htl
          | some s => simpa [stream_response, chunk_contents] using ih htl
      | fault e' =>
          have := h (StreamEvent.fault e') (List.mem_cons_self _ _)
          simp [StreamEvent.isFault] at this

theorem find?_first {α : Type} (p : α → Bool) (pre post : List α) (m : α)
    (hm : p m = true) (hpre : ∀ x ∈ pre, p x = false) :
    (pre ++ m :: post).find? p = some m := by
  induction pre with
  | nil => simp [List.find?, hm]
  | cons hd tl ih =>
      have hhd : p hd = false := hpre hd (List.mem_cons_self _ _)
      have htl : ∀ x ∈ tl, p x = false := fun x hx => hpre x (List.mem_cons_of_mem _ hx)
      simp [List.find?, hhd, ih htl]

theorem conv_ok_default (createdAt : String) :
    conv_ok (conv_json (default_conversation createdAt)) = true := by
  rfl

/-!  Claim theorems. -/

/-- C2, counterexample: the blob `\x7b"foo": 1\x7d` is parseable but its shape
has an unknown key and lacks every expected key; contrary to the claim,
importing it does not fail with MalformedData: it succeeds with a success
notice and stores the junk value in the store under the fresh id. -/
theorem c2_shape_not_validated :
    alookup "b" ((import_conversation (Except.ok (Json.obj [("foo", Json.num 1)])) "b"
        (initialize_session_state "a" "t0" empty_state)).1).conversations =
      some (Json.obj [("foo", Json.num 1)]) ∧
    (import_conversation (Except.ok (Json.obj [("foo", Json.num 1)])) "b"
        (initialize_session_state "a" "t0" empty_state)).2 =
      [Notice.success "✅ Conversation imported successfully!"] :=
  ⟨rfl, rfl⟩

/-- C2, amended: import always stores the blob under the freshly generated
uuid and makes it active (the stored key never comes from the blob, whatever
it contains); input that is not parseable reports an import error and leaves
the store and the active conversation unchanged; but a parseable blob of any
shape — unknown or missing keys included — is accepted and stored as-is,
with no MalformedData shape check. -/
theorem c2_import_fresh_id_and_parse_safety (s : AppState) (freshId e : String) (data : Json) :
    import_conversation (Except.error e) freshId s =
      (s, [Notice.error ("❌ Error importing conversation: " ++ e)]) ∧
    (import_conversation (Except.ok data) freshId s).1.active_conversation = some freshId ∧
    alookup freshId (import_conversation (Except.ok data) freshId s).1.conversations =
      some data :=
  ⟨rfl, rfl, alookup_setKey_self freshId data s.conversations⟩

/-- C3, counterexample: on a store with exactly one conversation,
`delete_conversation` is indeed a no-op that leaves the single entry in
place, but contrary to the claim it reports nothing at all — it returns
normally (no exception) and emits no notice, so no LastConversationError
reaches the caller. -/
theorem c3_sole_delete_reports_nothing :
    (initialize_session_state "a" "t0" empty_state).conversations.length = 1 ∧
    delete_conversation "a" (initialize_session_state "a" "t0" empty_state) =
      some (initialize_session_state "a" "t0" empty_state, []) :=
  ⟨rfl, rfl⟩

/-- C3, amended: with exactly one conversation, delete is a silent no-op
(the state is returned unchanged, with exactly one entry and no notice or
error reported); with more than one conversation and `cid` a present key,
delete removes exactly that entry, keeps every other entry and the key
order, and when the deleted conversation was active reassigns the active id
to the first remaining key in insertion order. -/
theorem c3_delete_behavior (s : AppState) (cid : String)
    (hnd : (s.conversations.map Prod.fst).Nodup) :
    (s.conversations.length = 1 → delete_conversation cid s = some (s, [])) ∧
    (s.conversations.length > 1 → ∀ v, alookup cid s.conversations = some v →
      ∃ s', delete_conversation cid s = some (s', []) ∧
        alookup cid s'.conversations = none ∧
        s'.conversations.length + 1 = s.conversations.length ∧
        (∀ k, k ≠ cid → alookup k s'.conversations = alookup k s.conversations) ∧
        s'.conversations.map Prod.fst = (s.conversations.map Prod.fst).filter (fun x => x ≠ cid) ∧
        (s.active_conversation = some cid →
          s'.active_conversation = (s'.conversations.map Prod.fst).head?) ∧
        (s.active_conversation ≠ some cid →
          s'.active_conversation = s.active_conversation)) := by
  constructor
  · intro h1
    rw [delete_conversation, h1]
    simp
  · intro hlen v hv
    refine ⟨{ conversations := delKey cid s.conversations,
              active_conversation :=
                if s.active_conversation = some cid
                then ((delKey cid s.conversations).map Prod.fst).head?
                else s.active_conversation }, ?_, ?_, ?_, ?_, ?_, ?_, ?_⟩
    · rw [delete_conversation, if_pos hlen, hv]
      rfl
    · exact alookup_delKey_self cid s.conversations
    · exact length_delKey cid v s.conversations hnd hv
    · intro k hk
      exact alookup_delKey_ne cid k s.conversations hk
    · exact keys_delKey cid s.conversations
    · intro hact
      simp [hact]
    · intro hact
      simp [hact]

/-- Witness for C3 on a concrete two-conversation store (ids "a" and "b",
with "b" active): deleting "b" removes it, keeps "a", and reassigns the
active id to the first remaining key. -/
theorem c3_delete_behavior_witness :
    ∃ s', delete_conversation "b"
        (create_new_conversation "b" "t1" (initialize_session_state "a" "t0" empty_state)) =
        some (s', []) ∧
      alookup "b" s'.conversations = none ∧
      s'.conversations.length + 1 =
        (create_new_conversation "b" "t1"
          (initialize_session_state "a" "t0" empty_state)).conversations.length ∧
      (∀ k, k ≠ "b" → alookup k s'.conversations =
        alookup k (create_new_conversation "b" "t1"
          (initialize_session_state "a" "t0" empty_state)).conversations) ∧
      s'.conversations.map Prod.fst =
        ((create_new_conversation "b" "t1"
          (initialize_session_state "a" "t0" empty_state)).conversations.map Prod.fst).filter
          (fun x => x ≠ "b") ∧
      ((create_new_conversation "b" "t1"
          (initialize_session_state "a" "t0" empty_state)).active_conversation = some "b" →
        s'.active_conversation = (s'.conversations.map Prod.fst).head?) ∧
      ((create_new_conversation "b" "t1"
          (initialize_session_state "a" "t0" empty_state)).active_conversation ≠ some "b" →
        s'.active_conversation = (create_new_conversation "b" "t1"
          (initialize_session_state "a" "t0" empty_state)).active_conversation) :=
  (c3_delete_behavior
      (create_new_conversation "b" "t1" (initialize_session_state "a" "t0" empty_state))
      "b" (by decide)).2 (by decide)
    (conv_json (default_conversation "t1")) rfl

/-- C1, counterexample: starting from a freshly initialized store (whose
only conversation satisfies the invariant), importing the parseable blob
`\x7b"temperature": 5\x7d` — a store operation of the claim — leaves the store
holding a conversation whose model does not resolve in the catalog, whose
personality is not a valid key, and whose temperature is outside [0, 1], so
the claimed invariant fails after an import operation. -/
theorem c1_import_breaks_invariant :
    state_ok ((import_conversation (Except.ok (Json.obj [("temperature", Json.num 5)])) "b"
      (initialize_session_state "a" "t0" empty_state)).1) = false :=
  rfl

/-- C1, amended: every conversation held in the store satisfies the
invariant (model resolves in the catalog, personality is a valid
system-prompt key, temperature in [0, 1]) after initialization, create,
clear-all, and a configuration update whose widget-constrained inputs are a
catalog model name, a known personality and a temperature in [0, 1] — but
not after import, which stores arbitrary parsed JSON unvalidated
(see the counterexample). -/
theorem c1_invariant_preserved
    (s : AppState) (freshId createdAt modelName personality : String) (temperature : ℚ)
    (hs : state_ok s = true)
    (hm : (alookup modelName models).isSome = true)
    (hp : (alookup personality system_prompts).isSome = true)
    (h0 : 0 ≤ temperature) (h1 : temperature ≤ 1) :
    state_ok (initialize_session_state freshId createdAt s) = true ∧
    state_ok (create_new_conversation freshId createdAt s) = true ∧
    state_ok (clear_all freshId createdAt s) = true ∧
    (∀ s', update_settings modelName personality temperature s = some s' →
      state_ok s' = true) := by
  have hdef : ∀ t, conv_ok (conv_json (default_conversation t)) = true := conv_ok_default
  refine ⟨?_, ?_, ?_, ?_⟩
  · cases ha : s.active_conversation with
    | some aid => simp only [initialize_session_state, ha]; exact hs
    | none =>
        simp only [initialize_session_state, ha, state_ok]
        exact all_setKey _ _ _ _ hs (hdef createdAt)
  · simp only [create_new_conversation, state_ok]
    exact all_setKey _ _ _ _ hs (hdef createdAt)
  · by_cases he : s.conversations.isEmpty
    · simp only [clear_all, he, if_pos]
      exact hs
    · simp only [clear_all, he, if_neg, Bool.false_eq_true, not_false_iff, state_ok,
        List.all_cons, List.all_nil, Bool.and_true]
      exact hdef createdAt
  · intro s' h
    cases ha : s.active_conversation with
    | none =>
        simp only [update_settings, ha, Option.some_inj] at h
        subst h
        exact hs
    | some aid =>
        simp only [update_settings, ha] at h
        cases hc : alookup aid s.conversations with
        | none => simp [hc] at h
        | some conv =>
            simp only [hc] at h
            obtain ⟨mid, hmid⟩ := Option.isSome_iff_exists.mp hm
            simp only [hmid] at h
            cases conv with
            | null => simp [jupdate] at h
            | bool b => simp [jupdate] at h
            | num q => simp [jupdate] at h
            | str t => simp [jupdate] at h
            | arr xs => simp [jupdate] at h
            | obj fields =>
                simp only [jupdate, List.foldl, Option.some_inj] at h
                subst h
                have hmodel : alookup "model" (setKey "temperature" (Json.num temperature)
                    (setKey "personality" (Json.str personality)
                      (setKey "model" (Json.str mid) fields))) = some (Json.str mid) := by
                  rw [alookup_setKey_ne _ _ _ _ (by decide),
                      alookup_setKey_ne _ _ _ _ (by decide),
                      alookup_setKey_self]
                have hpers : alookup "personality" (setKey "temperature" (Json.num temperature)
                    (setKey "personality" (Json.str personality)
                      (setKey "model" (Json.str mid) fields))) =
                      some (Json.str personality) := by
                  rw [alookup_setKey_ne _ _ _ _ (by decide), alookup_setKey_self]
                have htemp : alookup "temperature" (setKey "temperature" (Json.num temperature)
                    (setKey "personality" (Json.str personality)
                      (setKey "model" (Json.str mid) fields))) =
                      some (Json.num temperature) := by
                  rw [alookup_setKey_self]
                have hok : conv_ok (Json.obj (setKey "temperature" (Json.num temperature)
                    (setKey "personality" (Json.str personality)
                      (setKey "model" (Json.str mid) fields)))) = true := by
                  simp only [conv_ok, jlookup, hmodel, hpers, htemp, Bool.and_eq_true]
                  refine ⟨⟨?_, ?_⟩, ?_⟩
                  · simpa [catalog_model_ids] using
                      alookup_mem_values modelName mid models hmid
                  · exact hp
                  · simp [h0, h1]
                exact all_setKey _ _ _ _ hs hok

/-- Witness for C1 at a concrete state and concrete widget inputs. -/
theorem c1_invariant_preserved_witness :
    state_ok (initialize_session_state "a" "t0" empty_state) = true ∧
    state_ok (create_new_conversation "a" "t0" empty_state) = true ∧
    state_ok (clear_all "a" "t0" empty_state) = true ∧
    (∀ s', update_settings "GPT-4o" "Teacher" (mkRat 3 10) empty_state = some s' →
      state_ok s' = true) :=
  c1_invariant_preserved empty_state "a" "t0" "GPT-4o" "Teacher" (mkRat 3 10)
    (by decide) (by decide) (by decide) (by decide) (by decide)

/-- C10: with more than one conversation in the store, `delete_conversation`
on an id absent from the store hits `del` on a missing key and raises an
uncaught `KeyError` (the `none` result of the embedding) instead of
reporting a NotFound condition; when the id is a present key the call
returns normally. -/
theorem c10_delete_absent_raises (s : AppState) (cid : String)
    (hlen : s.conversations.length > 1) :
    (alookup cid s.conversations = none → delete_conversation cid s = none) ∧
    ((alookup cid s.conversations).isSome = true →
      (delete_conversation cid s).isSome = true) := by
  constructor
  · intro habs
    rw [delete_conversation, if_pos hlen, habs]
    rfl
  · intro hpres
    rw [delete_conversation, if_pos hlen, if_pos hpres]
    rfl

/-- Witness for C10 on a concrete two-conversation store: deleting the
absent id "zzz" raises (returns `none`), deleting the present id "a"
returns normally. -/
theorem c10_delete_absent_raises_witness :
    delete_conversation "zzz"
      (create_new_conversation "b" "t1" (initialize_session_state "a" "t0" empty_state)) =
      none ∧
    (delete_conversation "a"
      (create_new_conversation "b" "t1" (initialize_session_state "a" "t0" empty_state))).isSome =
      true :=
  ⟨(c10_delete_absent_raises _ "zzz" (by decide)).1 rfl,
   (c10_delete_absent_raises _ "a" (by decide)).2 (by decide)⟩

theorem submit_message_spec (input : String) (events : List StreamEvent) (conv : Conversation)
    (sys : String) (hin : ¬ py_strip input = "")
    (hs : alookup conv.personality system_prompts = some sys) :
    ∃ conv', submit_message input events conv = some conv' ∧
      conv'.messages = conv.messages ++
        [{ role := "user", content := py_strip input },
         { role := "assistant", content := String.join (stream_response events) }] := by
  simp only [submit_message, if_neg hin]
  by_cases hone : (conv.messages ++ [({ role := "user", content := py_strip input } : Message)]).length = 1
  · simp only [if_pos hone, assemble_request, hs]
    exact ⟨_, rfl, by simp⟩
  · simp only [if_neg hone, assemble_request, hs]
    exact ⟨_, rfl, by simp⟩

theorem submit_message_no_prompt (input : String) (events : List StreamEvent)
    (conv : Conversation) (hin : ¬ py_strip input = "")
    (hs : alookup conv.personality system_prompts = none) :
    submit_message input events conv = none := by
  simp only [submit_message, if_neg hin]
  by_cases hone : (conv.messages ++ [({ role := "user", content := py_strip input } : Message)]).length = 1
  · simp only [if_pos hone, assemble_request, hs]
  · simp only [if_neg hone, assemble_request, hs]

/-- C4, counterexample: `" hi"` is a user-message content of length at most
30, yet the title deriver returns `"hi"`, not the content unchanged — the
source strips whitespace from the 30-character prefix before using it. -/
theorem c4_short_content_not_unchanged :
    get_conversation_title [{ role := "user", content := " hi" }] = "hi" ∧
    py_len " hi" ≤ 30 ∧ "hi" ≠ " hi" := by
  refine ⟨by decide, by decide, by decide⟩

/-- C4, amended: with no user message the title is "New Chat"; otherwise it
is the first 30 characters of the first user message with surrounding
whitespace stripped, followed by "..." exactly when the content exceeds 30
characters (so content of length at most 30 is returned unchanged only when
the strip removes nothing). The deriver is a pure function of the message
list. -/
theorem c4_title_first_user_strip (msgs pre post : List Message) (m : Message) :
    ((∀ m' ∈ msgs, m'.role ≠ "user") → get_conversation_title msgs = "New Chat") ∧
    (msgs = pre ++ m :: post → m.role = "user" → (∀ m' ∈ pre, m'.role ≠ "user") →
      get_conversation_title msgs =
        py_strip (py_take 30 m.content) ++
          (if py_len m.content > 30 then "..." else "")) := by
  constructor
  · intro hno
    by_cases hnil : msgs = []
    · simp [get_conversation_title, hnil]
    · have hfind : msgs.find? (fun m' => m'.role = "user") = none := by
        refine List.find?_eq_none.mpr (fun x hx => ?_)
        simp [hno x hx]
      simp [get_conversation_title, hnil, hfind]
  · intro heq hrole hpre
    subst heq
    have hne : pre ++ m :: post ≠ [] := by simp
    have hfind : (pre ++ m :: post).find? (fun m' => m'.role = "user") = some m := by
      refine find?_first _ pre post m ?_ ?_
      · simp [hrole]
      · intro x hx
        simp [hpre x hx]
    rw [get_conversation_title, if_neg hne, hfind]
    by_cases hlong : py_len m.content > 30
    · simp [hlong]
    · simp [hlong, String.append_empty]

/-- Witness for C4: a list with no user message titles "New Chat"; in a list
whose first user message follows an assistant message and has 36 characters,
the title is the stripped 30-character prefix plus the ellipsis marker. -/
theorem c4_title_first_user_strip_witness :
    get_conversation_title [{ role := "assistant", content := "x" }] = "New Chat" ∧
    get_conversation_title [{ role := "assistant", content := "x" },
        { role := "user", content := " 0123456789012345678901234567890123 " }] =
      py_strip (py_take 30 " 0123456789012345678901234567890123 ") ++
        (if py_len " 0123456789012345678901234567890123 " > 30 then "..." else "") :=
  ⟨(c4_title_first_user_strip [{ role := "assistant", content := "x" }] [] []
      { role := "user", content := "" }).1 (by decide),
   (c4_title_first_user_strip _ [{ role := "assistant", content := "x" }] []
      { role := "user", content := " 0123456789012345678901234567890123 " }).2
      rfl (by decide) (by decide)⟩

/-- C6: whenever the backend fails at any point during streaming (after the
fault-free prefix `pre` of its events), the chunk sequence produced by
`stream_response` is exactly the chunks already emitted followed by exactly
one final error-marked chunk, and it terminates there — whatever events
would have followed the fault contribute nothing. The embedding is a total
function, so no exception escapes to the caller. -/
theorem c6_stream_fault_terminal (pre suffix : List StreamEvent) (e : String)
    (hpre : ∀ ev ∈ pre, ev.isFault = false) :
    stream_response (pre ++ StreamEvent.fault e :: suffix) =
      chunk_contents pre ++ ["❌ Error: " ++ e] ∧
    begins_with error_marker ("❌ Error: " ++ e) = true := by
  refine ⟨stream_response_fault pre suffix e hpre, ?_⟩
  rfl

/-- Witness for C6: a stream that emits "Hel", a null delta, then faults. -/
theorem c6_stream_fault_terminal_witness :
    stream_response
        [StreamEvent.chunk (some "Hel"), StreamEvent.chunk none,
         StreamEvent.fault "boom", StreamEvent.chunk (some "lost")] =
      chunk_contents [StreamEvent.chunk (some "Hel"), StreamEvent.chunk none] ++
        ["❌ Error: " ++ "boom"] ∧
    begins_with error_marker ("❌ Error: " ++ "boom") = true :=
  c6_stream_fault_terminal
    [StreamEvent.chunk (some "Hel"), StreamEvent.chunk none]
    [StreamEvent.chunk (some "lost")] "boom" (by decide)

/-- C5, counterexample: on the turn "Hi" whose backend streams "Hel" and
then raises, the committed assistant message is "Hel❌ Error: boom" — the
error chunk is appended after the already-streamed content, so the final
assistant message does not begin with the error marker (it is persisted,
though). -/
theorem c5_error_after_partial_content :
    submit_message "Hi" [StreamEvent.chunk (some "Hel"), StreamEvent.fault "boom"]
        (default_conversation "t0") =
      some { title := "Hi",
             messages := [{ role := "user", content := "Hi" },
                          { role := "assistant", content := "Hel❌ Error: boom" }],
             created_at := "t0", model := "anthropic/claude-sonnet-4",
             personality := "Assistant", temperature := mkRat 7 10 } ∧
    begins_with error_marker "Hel❌ Error: boom" = false := by
  exact ⟨by decide, by decide⟩

/-- C5, amended: when the backend raises a transport fault mid-stream, the
final assistant message committed to the conversation is the already
streamed content with the error-marked chunk appended, and it is persisted
as the last entry of the message history rather than dropped; when the
fault precedes any streamed content the message begins with the designated
error marker (otherwise it begins with the streamed content, so it need
not carry the marker as a prefix — see the counterexample). -/
theorem c5_fault_error_persisted (conv : Conversation) (input e : String)
    (pre : List StreamEvent)
    (hin : ¬ py_strip input = "")
    (hp : alookup conv.personality system_prompts = some sys)
    (hpre : ∀ ev ∈ pre, ev.isFault = false) :
    ∃ conv', submit_message input (pre ++ [StreamEvent.fault e]) conv = some conv' ∧
      conv'.messages.getLast? =
        some { role := "assistant",
               content := String.join (chunk_contents pre ++ ["❌ Error: " ++ e]) } ∧
      conv'.messages.length = conv.messages.length + 2 ∧
      (chunk_contents pre = [] →
        begins_with error_marker
          (String.join (chunk_contents pre ++ ["❌ Error: " ++ e])) = true) := by
  obtain ⟨conv', hsub, hmsg⟩ :=
    submit_message_spec input (pre ++ [StreamEvent.fault e]) conv sys hin hp
  have hresp : stream_response (pre ++ [StreamEvent.fault e]) =
      chunk_contents pre ++ ["❌ Error: " ++ e] :=
    stream_response_fault pre [] e hpre
  refine ⟨conv', hsub, ?_, ?_, ?_⟩
  · rw [hmsg, hresp]
    rw [show conv.messages ++
        [{ role := "user", content := py_strip input },
         ({ role := "assistant",
            content := String.join (chunk_contents pre ++ ["❌ Error: " ++ e]) } : Message)] =
      (conv.messages ++ [{ role := "user", content := py_strip input }]) ++
        [{ role := "assistant",
           content := String.join (chunk_contents pre ++ ["❌ Error: " ++ e]) }] by simp]
    exact List.getLast?_concat _
  · rw [hmsg]
    simp
  · intro h0
    rw [h0]
    rfl

/-- Witness for C5: the turn "Hi" on a fresh conversation with a backend
that streams "Hel" and then faults with "boom". -/
theorem c5_fault_error_persisted_witness :
    ∃ conv', submit_message "Hi"
        ([StreamEvent.chunk (some "Hel")] ++ [StreamEvent.fault "boom"])
        (default_conversation "t0") = some conv' ∧
      conv'.messages.getLast? =
        some { role := "assistant",
               content := String.join
                 (chunk_contents [StreamEvent.chunk (some "Hel")] ++
                   ["❌ Error: " ++ "boom"]) } ∧
      conv'.messages.length = (default_conversation "t0").messages.length + 2 ∧
      (chunk_contents [StreamEvent.chunk (some "Hel")] = [] →
        begins_with error_marker
          (String.join (chunk_contents [StreamEvent.chunk (some "Hel")] ++
            ["❌ Error: " ++ "boom"])) = true) :=
  c5_fault_error_persisted (default_conversation "t0") "Hi" "boom"
    [StreamEvent.chunk (some "Hel")] (by decide) rfl (by decide)

theorem assemble_request_spec (personality sys : String) (msgs : List Message) (u : Message)
    (hp : alookup personality system_prompts = some sys) :
    ∃ req dropped,
      assemble_request personality (msgs ++ [u]) = some req ∧
      req.length = 1 + min 20 (msgs.length + 1) ∧
      req.head? = some { role := "system", content := sys } ∧
      dropped ++ req.tail = msgs ++ [u] ∧
      req.getLast? = some u := by
  have hmlen : (msgs ++ [u]).length = msgs.length + 1 := by simp
  have htail : (msgs ++ [u]).drop ((msgs ++ [u]).length - 20) ≠ [] := by
    intro hemp
    have hle := congrArg List.length hemp
    rw [List.length_drop, hmlen] at hle
    simp at hle
    omega
  refine ⟨({ role := "system", content := sys } : Message) ::
      (msgs ++ [u]).drop ((msgs ++ [u]).length - 20),
    (msgs ++ [u]).take ((msgs ++ [u]).length - 20),
    ?_, ?_, rfl, List.take_append_drop _ _, ?_⟩
  · rw [assemble_request, hp]
  · rw [List.length_cons, List.length_drop, hmlen]
    omega
  · have h1 : ({ role := "system", content := sys } : Message) ::
        (msgs ++ [u]).drop ((msgs ++ [u]).length - 20) =
        [({ role := "system", content := sys } : Message)] ++
          (msgs ++ [u]).drop ((msgs ++ [u]).length - 20) := rfl
    rw [h1, List.getLast?_append_of_ne_nil _ htail]
    have h3 : (msgs ++ [u]).getLast? = some u := List.getLast?_concat _
    rw [← List.take_append_drop ((msgs ++ [u]).length - 20) (msgs ++ [u]),
        List.getLast?_append_of_ne_nil _ htail] at h3
    exact h3

/-- C7: on every turn with non-empty stripped input and a personality known
to the system-prompt table, the request assembled for the backend is one
system message holding that personality prompt, followed by the most recent
`min 20` entries of the messages after the user append — a suffix of the
conversation history in original chronological order, whose last entry is
the just-appended user message, regardless of the roles involved. -/
theorem c7_request_window (conv : Conversation) (input sysPrompt : String)
    (hin : ¬ py_strip input = "")
    (hp : alookup conv.personality system_prompts = some sysPrompt) :
    ∃ req dropped,
      turn_request input conv = some req ∧
      req.length = 1 + min 20 (conv.messages.length + 1) ∧
      req.head? = some { role := "system", content := sysPrompt } ∧
      dropped ++ req.tail =
        conv.messages ++ [{ role := "user", content := py_strip input }] ∧
      req.getLast? = some { role := "user", content := py_strip input } := by
  obtain ⟨req, dropped, hreq, hlen, hhead, hdrop, hlast⟩ :=
    assemble_request_spec conv.personality sysPrompt conv.messages
      { role := "user", content := py_strip input } hp
  refine ⟨req, dropped, ?_, hlen, hhead, hdrop, hlast⟩
  rw [turn_request, if_neg hin]
  exact hreq

/-- Witness for C7: a conversation with 25 prior messages and the turn
input "Hi" — the request is 1 system message plus the 20 most recent. -/
theorem c7_request_window_witness :
    ∃ req dropped,
      turn_request "Hi"
        { title := "T", messages := List.replicate 25 ({ role := "assistant", content := "x" } : Message),
          created_at := "t0", model := "anthropic/claude-sonnet-4",
          personality := "Assistant", temperature := mkRat 7 10 } = some req ∧
      req.length = 1 + min 20 ((List.replicate 25
        ({ role := "assistant", content := "x" } : Message)).length + 1) ∧
      req.head? = some { role := "system",
                         content := "You are a helpful AI assistant. Provide clear, accurate, and helpful responses to user queries." } ∧
      dropped ++ req.tail =
        List.replicate 25 ({ role := "assistant", content := "x" } : Message) ++
          [{ role := "user", content := py_strip "Hi" }] ∧
      req.getLast? = some { role := "user", content := py_strip "Hi" } :=
  c7_request_window
    { title := "T", messages := List.replicate 25 ({ role := "assistant", content := "x" } : Message),
      created_at := "t0", model := "anthropic/claude-sonnet-4",
      personality := "Assistant", temperature := mkRat 7 10 }
    "Hi"
    "You are a helpful AI assistant. Provide clear, accurate, and helpful responses to user queries."
    (by decide) rfl

/-- C8: a turn whose input strips to empty is rejected silently, leaving the
conversation unchanged; a turn whose input strips non-empty and that
completes (returns a new conversation state, on the success path and on the
backend-failure path alike — `events` is arbitrary, faulted or not) appends
exactly the user message followed by the assistant message, growing the
message list by exactly 2. -/
theorem c8_turn_appends_two (input : String) (events : List StreamEvent)
    (conv : Conversation) :
    (py_strip input = "" → submit_message input events conv = some conv) ∧
    (¬ py_strip input = "" → ∀ conv', submit_message input events conv = some conv' →
      ∃ resp, conv'.messages =
          conv.messages ++ [{ role := "user", content := py_strip input },
                            { role := "assistant", content := resp }] ∧
        conv'.messages.length = conv.messages.length + 2) := by
  constructor
  · intro h
    rw [submit_message, if_pos h]
  · intro hin conv' h
    cases hs : alookup conv.personality system_prompts with
    | none =>
        rw [submit_message_no_prompt input events conv hin hs] at h
        exact absurd h (by simp)
    | some sys =>
        obtain ⟨conv'', hsub, hmsg⟩ := submit_message_spec input events conv sys hin hs
        rw [hsub, Option.some_inj] at h
        subst h
        refine ⟨String.join (stream_response events), hmsg, ?_⟩
        rw [hmsg]
        simp

/-- Witness for C8: the empty-after-strip input "   " is a silent no-op;
the turn "Hi" with a two-chunk stream appends exactly two messages. -/
theorem c8_turn_appends_two_witness :
    submit_message "   " [] (default_conversation "t0") =
      some (default_conversation "t0") ∧
    ∃ resp, ({ title := "Hi",
               messages := [{ role := "user", content := "Hi" },
                            { role := "assistant", content := "Hello!" }],
               created_at := "t0", model := "anthropic/claude-sonnet-4",
               personality := "Assistant", temperature := mkRat 7 10 } : Conversation).messages =
        (default_conversation "t0").messages ++
          [{ role := "user", content := py_strip "Hi" },
           { role := "assistant", content := resp }] ∧
      ({ title := "Hi",
         messages := [{ role := "user", content := "Hi" },
                      { role := "assistant", content := "Hello!" }],
         created_at := "t0", model := "anthropic/claude-sonnet-4",
         personality := "Assistant", temperature := mkRat 7 10 } : Conversation).messages.length =
        (default_conversation "t0").messages.length + 2 :=
  ⟨(c8_turn_appends_two "   " [] (default_conversation "t0")).1 (by decide),
   (c8_turn_appends_two "Hi"
      [StreamEvent.chunk (some "Hel"), StreamEvent.chunk (some "lo!")]
      (default_conversation "t0")).2 (by decide) _ (by decide)⟩

/-- C9: exporting any well-shaped conversation held in the store and
importing the blob back yields a stored conversation whose title, messages,
created_at, model, personality and temperature fields are identical to the
original, stored under the freshly generated id (which may differ from the
original id) — the import never copies an id out of the blob. -/
theorem c9_export_import_roundtrip (s : AppState) (cid freshId : String) (c : Conversation)
    (hc : alookup cid s.conversations = some (conv_json c)) :
    ∃ blob, export_conversation cid s = some blob ∧
      alookup freshId
        (import_conversation (Except.ok blob) freshId s).1.conversations = some blob ∧
      jlookup blob "title" = some (Json.str c.title) ∧
      jlookup blob "messages" = some (Json.arr (c.messages.map msg_json)) ∧
      jlookup blob "model" = some (Json.str c.model) ∧
      jlookup blob "personality" = some (Json.str c.personality) ∧
      jlookup blob "temperature" = some (Json.num c.temperature) :=
  ⟨conv_json c, by rw [export_conversation, hc],
   alookup_setKey_self _ _ _, rfl, rfl, rfl, rfl, rfl⟩

/-- Witness for C9 on the freshly initialized store: export the default
conversation stored at "a" and re-import it under the fresh id "b". -/
theorem c9_export_import_roundtrip_witness :
    ∃ blob, export_conversation "a"
        (initialize_session_state "a" "t0" empty_state) = some blob ∧
      alookup "b" (import_conversation (Except.ok blob) "b"
        (initialize_session_state "a" "t0" empty_state)).1.conversations = some blob ∧
      jlookup blob "title" = some (Json.str (default_conversation "t0").title) ∧
      jlookup blob "messages" =
        some (Json.arr ((default_conversation "t0").messages.map msg_json)) ∧
      jlookup blob "model" = some (Json.str (default_conversation "t0").model) ∧
      jlookup blob "personality" =
        some (Json.str (default_conversation "t0").personality) ∧
      jlookup blob "temperature" =
        some (Json.num (default_conversation "t0").temperature) :=
  c9_export_import_roundtrip (initialize_session_state "a" "t0" empty_state)
    "a" "b" (default_conversation "t0") rfl

end KodekeyChatbot
